import Mathlib

/-!
Verification development for the Topiary Park Living widget
(`src/js/app.js` — direct-access client variant plus the serverless proxy
handler — and the unnamed proxy-variant client script).  The JavaScript is
shallowly embedded: field values become an inductive `JVal`, the
process-wide schema cache and the two injected JSON-LD documents become a
`SchemaState`, fetch handlers become pure step functions from a fetch
outcome and a state to a rendered view and a new state, and the serverless
handler becomes a pure function from the request method, the configured
key and the two upstream results to an HTTP response.
-/

namespace Topiary

/-- A JavaScript field value as it can arrive from the Airtable JSON
payload: a number, a string, JSON `null`, or an absent property
(`undefined`).  Numbers are modelled as rationals; the prices occurring in
this system are decimal literals, which rationals represent exactly. -/
inductive JVal : Type where
  | num (q : ℚ)
  | str (s : String)
  | jnull
  | absent
deriving DecidableEq, Repr

/-- JavaScript truthiness of a `JVal`: numbers are truthy unless zero,
strings unless empty, and `null`/`undefined` are falsy. -/
def JVal.truthy : JVal → Bool
  | .num q => q ≠ 0
  | .str s => s ≠ ""
  | .jnull => false
  | .absent => false

/-- Longest leading run of decimal digits of a character list, paired with
the rest of the list. -/
def takeDigits : List Char → List Char × List Char
  | [] => ([], [])
  | c :: cs =>
    if c.isDigit then
      let p := takeDigits cs
      (c :: p.1, p.2)
    else ([], c :: cs)

/-- Numeric value of a list of decimal digit characters, most significant
first. -/
def digitsToNat (ds : List Char) : ℕ :=
  ds.foldl (fun acc c => 10 * acc + (c.toNat - 48)) 0

/-- Result of lexing a decimal numeral prefix: sign, integer digits,
fractional digits, and the unconsumed remainder. -/
structure DecLex where
  negative : Bool
  intDigits : List Char
  fracDigits : List Char
  rest : List Char
deriving DecidableEq, Repr

/-- Lex a decimal numeral prefix of a character list: an optional sign, a
run of integer digits, and an optional fractional digit run after a dot.
The dot is consumed only when it is present. -/
def lexDecimal (cs : List Char) : DecLex :=
  let signAndRest : Bool × List Char :=
    match cs with
    | '-' :: rest => (true, rest)
    | '+' :: rest => (false, rest)
    | _ => (false, cs)
  let intPart := takeDigits signAndRest.2
  let fracAndRest : List Char × List Char :=
    match intPart.2 with
    | '.' :: rest => takeDigits rest
    | _ => ([], intPart.2)
  { negative := signAndRest.1
    intDigits := intPart.1
    fracDigits := fracAndRest.1
    rest := fracAndRest.2 }

/-- The rational value of a lexed decimal numeral. -/
def DecLex.value (L : DecLex) : ℚ :=
  (if L.negative then -1 else 1) *
    ((digitsToNat L.intDigits : ℚ) + (digitsToNat L.fracDigits : ℚ) / (10 : ℚ) ^ L.fracDigits.length)

/-- Whether the lexed numeral contains at least one mantissa digit;
JavaScript number parsing yields `NaN` otherwise. -/
def DecLex.hasDigits (L : DecLex) : Bool :=
  !(L.intDigits.isEmpty && L.fracDigits.isEmpty)

/-- Characters JavaScript number parsing skips as leading whitespace (the
common ASCII subset; the currency strings of this system contain none of
the exotic Unicode space characters). -/
def isJsSpace (c : Char) : Bool :=
  c == ' ' || c == '\t' || c == '\n' || c == '\r'

/-- Models JavaScript `parseFloat` restricted to plain decimal notation:
skip leading whitespace, lex an optional sign, an integer digit run and an
optional fractional digit run after a dot, and ignore everything after the
first character that no longer fits.  `none` models `NaN` (no digit was
consumed).  Exponent notation and `Infinity`, which cannot arise from the
currency strings this system feeds to `parseFloat`, are not modelled. -/
def parseFloat (s : String) : Option ℚ :=
  let L := lexDecimal (s.data.dropWhile isJsSpace)
  if L.hasDigits then some L.value else none

/-- Models the JavaScript `Number(string)` coercion (as performed by
`Intl.NumberFormat.format`) restricted to plain decimal notation: trim
surrounding whitespace, map the empty remainder to `0`, and otherwise
require the whole remainder to be one signed decimal numeral; anything
else is `NaN` (`none`).  Hexadecimal, exponent and `Infinity` forms are
not modelled, as above. -/
def jsStringToNumber (s : String) : Option ℚ :=
  let cs := (s.data.dropWhile isJsSpace).reverse.dropWhile isJsSpace |>.reverse
  if cs.isEmpty then some 0
  else
    let L := lexDecimal cs
    if L.hasDigits && L.rest.isEmpty then some L.value else none

/-- Models the `ToNumber` coercion on a field value: numbers pass through,
`null` coerces to `0`, `undefined` to `NaN`, and strings go through
`Number(string)`. -/
def jsToNumber : JVal → Option ℚ
  | .num q => some q
  | .str s => jsStringToNumber s
  | .jnull => some 0
  | .absent => none

/-- Models `rawPrice.replace(/[$,]/g, '')`: remove every dollar sign and
comma from the string. -/
def stripCurrency (s : String) : String :=
  String.mk (s.data.filter fun c => !(c == '$' || c == ','))

/-- Models the per-record step of the schema price collection in
`fetchPricing` / `renderPricing`: take `fields['Current Price']`, parse it
through `parseFloat` after stripping `$` and `,` when it is a string, and
apply the filter `!isNaN(item.price) && item.price !== null`.  `none`
means the record is excluded from the aggregate list (`undefined` fails
`isNaN`, `null` fails the explicit null check, and an unparseable string
becomes `NaN`). -/
def normalizePrice : JVal → Option ℚ
  | .num q => some q
  | .str s => parseFloat (stripCurrency s)
  | .jnull => none
  | .absent => none

/-- Fields of a pricing record that the code reads: `Unit Name`, `Name`,
`Current Price`, `Promotions`. -/
structure PricingFields where
  unitName : JVal
  name : JVal
  currentPrice : JVal
  promotions : JVal
deriving DecidableEq, Repr

/-- An Airtable pricing record as consumed by the renderer. -/
structure PricingRecord where
  fields : PricingFields
deriving DecidableEq, Repr

/-- Fields of a FAQ record that the code reads: `Question`, `Answer`. -/
structure FaqFields where
  question : JVal
  answer : JVal
deriving DecidableEq, Repr

/-- An Airtable FAQ record as consumed by the renderer. -/
structure FaqRecord where
  fields : FaqFields
deriving DecidableEq, Repr

/-- One entry of the `faqData` list built for the schema update: the
question and answer strings after the `|| 'Question'` / `|| 'Answer'`
fallbacks. -/
structure FaqItem where
  question : String
  answer : String
deriving DecidableEq, Repr

/-- The published Offer JSON-LD document (its non-constant payload plus
the constant fields the code writes). -/
structure OfferSchema where
  priceCurrency : String
  lowPrice : ℚ
  highPrice : ℚ
  offerCount : ℕ
  availability : String
deriving DecidableEq, Repr

/-- One `mainEntity` entry of the FAQPage JSON-LD document: a `Question`
with its `acceptedAnswer` text. -/
structure FaqQuestion where
  name : String
  answerText : String
deriving DecidableEq, Repr

/-- The published FAQPage JSON-LD document. -/
structure FaqSchema where
  mainEntity : List FaqQuestion
deriving DecidableEq, Repr

/-- The Offer schema computed in `updateSchema` from a non-empty price
list: `Math.min`/`Math.max` over the spread prices, `offerCount` the list
length, fixed currency and availability.  `none` models the guard
`globalPricingData.length > 0` failing (the document is not built). -/
def offerSchemaOf : List ℚ → Option OfferSchema
  | [] => none
  | p :: ps =>
    some { priceCurrency := "USD"
           lowPrice := ps.foldl min p
           highPrice := ps.foldl max p
           offerCount := (p :: ps).length
           availability := "https://schema.org/InStock" }

/-- The FAQPage schema computed in `updateSchema`: one `Question` per
cached FAQ item, order preserved. -/
def faqSchemaOf (items : List FaqItem) : FaqSchema :=
  { mainEntity := items.map fun it => { name := it.question, answerText := it.answer } }

/-- Split a character list into groups of three, starting from the front;
used on the reversed digit string for thousands grouping. -/
def chunk3 : List Char → List (List Char)
  | [] => []
  | [a] => [[a]]
  | [a, b] => [[a, b]]
  | a :: b :: c :: rest => [a, b, c] :: chunk3 rest

/-- Decimal digits of a natural number with a comma every three digits,
as `Intl.NumberFormat('en-US')` groups them. -/
def groupThousands (n : ℕ) : String :=
  String.intercalate "," ((((chunk3 (Nat.repr n).data.reverse).reverse).map List.reverse).map String.mk)

/-- Rounding half away from zero, the default `halfExpand` rounding of
`Intl.NumberFormat` at zero fraction digits. -/
def jsRoundHalfExpand (q : ℚ) : ℤ :=
  if q < 0 then -⌊-q + 1 / 2⌋ else ⌊q + 1 / 2⌋

/-- Models `formatCurrency`: `Intl.NumberFormat('en-US', { style:
'currency', currency: 'USD', minimumFractionDigits: 0,
maximumFractionDigits: 0 }).format(amount)`.  The argument is coerced with
`ToNumber`; `NaN` formats as `$NaN`, and a number is rounded to an
integer and printed with a dollar sign and thousands separators. -/
def formatCurrency (v : JVal) : String :=
  match jsToNumber v with
  | none => "$NaN"
  | some q =>
    if q < 0 then "-$" ++ groupThousands (jsRoundHalfExpand q).natAbs
    else "$" ++ groupThousands (jsRoundHalfExpand q).natAbs

/-- JavaScript `a || b` on field values. -/
def jsOr (a b : JVal) : JVal :=
  if a.truthy then a else b

/-- String interpolation of a field value into a template literal.  Exact
for strings and integers; a non-integral number (which no record field of
the claims carries) is shown as a fraction rather than in the
shortest-round-trip double form, and `null`/`undefined` print their
JavaScript names. -/
def jsDisplay : JVal → String
  | .str s => s
  | .num q =>
    if q.den = 1 then
      (if q.num < 0 then "-" ++ Nat.repr q.num.natAbs else Nat.repr q.num.natAbs)
    else
      (if q.num < 0 then "-" else "") ++ Nat.repr q.num.natAbs ++ "/" ++ Nat.repr q.den
  | .jnull => "null"
  | .absent => "undefined"

/-- The `field || 'literal'` fallback pattern: display the field when it
is truthy, the fallback literal otherwise. -/
def jsValOrDefault (v : JVal) (dflt : String) : String :=
  if v.truthy then jsDisplay v else dflt

/-- The price cell of a rendered pricing row:
`fields['Current Price'] ? formatCurrency(fields['Current Price']) :
'Call for pricing'`. -/
def priceCell (v : JVal) : String :=
  if v.truthy then formatCurrency v else "Call for pricing"

/-- One rendered row of the pricing table: the resolved unit-name value,
the price cell text, the promotion badge value when the `Promotions`
field is truthy, and the constant availability cell. -/
structure PricingRow where
  unitName : JVal
  priceCell : String
  promotion : Option JVal
  availabilityCell : String
deriving DecidableEq, Repr

/-- Render one pricing record into its table row, with the
`fields['Unit Name'] || fields['Name'] || 'Apartment'` fallback chain. -/
def renderPricingRow (r : PricingRecord) : PricingRow :=
  { unitName := jsOr (jsOr r.fields.unitName r.fields.name) (.str "Apartment")
    priceCell := priceCell r.fields.currentPrice
    promotion := if r.fields.promotions.truthy then some r.fields.promotions else none
    availabilityCell := "Available Now" }

/-- The class list of a freshly rendered accordion content `div` (it
starts hidden). -/
def initialContentClasses : Finset String :=
  {"hidden", "bg-gray-50", "p-4", "border-t", "border-gray-100", "text-secondary",
   "leading-relaxed", "prose", "max-w-none"}

/-- The class list of a freshly rendered accordion chevron icon (it
starts unrotated). -/
def initialIconClasses : Finset String :=
  {"w-5", "h-5", "text-primary", "transform", "transition-transform", "duration-200"}

/-- One rendered accordion panel: the displayed question and answer and
the class lists of its content element and icon element.  DOM
`classList` membership is what CSS matches on, so the token list is
modelled as a finite set. -/
structure FaqPanel where
  question : String
  answer : String
  contentClasses : Finset String
  iconClasses : Finset String
deriving DecidableEq

/-- Render one FAQ record into its accordion panel, with the
`|| 'Question'` / `|| 'Answer'` fallbacks; the content starts hidden and
the icon unrotated. -/
def renderFaqPanel (r : FaqRecord) : FaqPanel :=
  { question := jsValOrDefault r.fields.question "Question"
    answer := jsValOrDefault r.fields.answer "Answer"
    contentClasses := initialContentClasses
    iconClasses := initialIconClasses }

/-- The `faqData` entry collected for the schema update from one FAQ
record. -/
def faqItemOf (r : FaqRecord) : FaqItem :=
  { question := jsValOrDefault r.fields.question "Question"
    answer := jsValOrDefault r.fields.answer "Answer" }

/-- Process-wide state of the Structured-Data Publisher: the two cached
lists (`globalPricingData`, `globalFaqData`) and the contents of the two
injected `script` elements (`dynamic-offer-schema`, `dynamic-faq-schema`);
`none` means the script element does not exist yet.  `injectJsonLd`
creates the element if missing and overwrites its text otherwise, which is
exactly `Option.some` assignment here. -/
structure SchemaState where
  globalPricingData : List ℚ
  globalFaqData : List FaqItem
  offerDoc : Option OfferSchema
  faqDoc : Option FaqSchema
deriving DecidableEq, Repr

/-- The page-load state: empty caches, no injected documents. -/
def SchemaState.initial : SchemaState :=
  { globalPricingData := [], globalFaqData := [], offerDoc := none, faqDoc := none }

/-- Models `updateSchema(newPricingData, newFaqData)`.  The callers pass
either an array or `null` for each argument; arrays (empty ones included)
are truthy and `null` is falsy, so the merge guards `if (newPricingData)`
/ `if (newFaqData)` are exactly a match on `Option`.  After the merge, the
Offer document is rebuilt and injected when the cached pricing list is
non-empty, and the FAQPage document is rebuilt and injected when the
cached FAQ list is non-empty. -/
def updateSchema (newPricingData : Option (List ℚ)) (newFaqData : Option (List FaqItem))
    (s : SchemaState) : SchemaState :=
  let s1 : SchemaState :=
    match newPricingData with
    | some l => { s with globalPricingData := l }
    | none => s
  let s2 : SchemaState :=
    match newFaqData with
    | some l => { s1 with globalFaqData := l }
    | none => s1
  let s3 : SchemaState :=
    if s2.globalPricingData.length > 0 then
      { s2 with offerDoc := offerSchemaOf s2.globalPricingData }
    else s2
  if s3.globalFaqData.length > 0 then
    { s3 with faqDoc := some (faqSchemaOf s3.globalFaqData) }
  else s3

/-- The list the pricing fetch hands to `updateSchema`: the records
mapped through price normalization with the unparseable ones filtered
out (`map` to `{ price }` followed by the `!isNaN && !== null` filter,
fused here into `filterMap`, which keeps the order and the multiplicity
of the surviving records). -/
def pricingDataOf (records : List PricingRecord) : List ℚ :=
  records.filterMap fun r => normalizePrice r.fields.currentPrice

/-- Content of one of the three page containers after a render step. -/
inductive ContainerView : Type where
  | loading
  | errorMsg
  | message (text : String)
  | pricingTable (rows : List PricingRow)
  | faqAccordion (panels : List FaqPanel)
deriving DecidableEq

/-- A parsed upstream JSON payload: its `records` field, `none` when the
payload omits it. -/
structure AirtablePayload (R : Type) where
  records : Option (List R)
deriving DecidableEq, Repr

/-- Outcome of one `fetch` as the calling code observes it: a rejected
promise carrying an error message, or a settled response with its `ok`
flag and parsed JSON body. -/
inductive FetchOutcome (α : Type) : Type where
  | netFail (msg : String)
  | resp (ok : Bool) (payload : α)
deriving DecidableEq, Repr

/-- Models `fetchPricing` of the direct-access client variant as a step
function from the fetch outcome and the publisher state after the loading
indicator is shown.  A rejected fetch and a non-`ok` response take the
catch path (`showError`); so does a payload without a `records` field,
where `records.length` throws on `undefined` and the `catch` shows the
error view.  Zero records renders the fixed no-data message and returns
before the schema update; otherwise the table is rendered and
`updateSchema(pricingData, null)` runs. -/
def fetchPricingStep (o : FetchOutcome (AirtablePayload PricingRecord)) (s : SchemaState) :
    ContainerView × SchemaState :=
  match o with
  | .netFail _ => (.errorMsg, s)
  | .resp ok payload =>
    if ok then
      match payload.records with
      | none => (.errorMsg, s)
      | some records =>
        if records.length = 0 then (.message "No availability at this time.", s)
        else
          (.pricingTable (records.map renderPricingRow),
           updateSchema (some (pricingDataOf records)) none s)
    else (.errorMsg, s)

/-- Models `fetchFAQ` of the direct-access client variant, analogously to
`fetchPricingStep`: error paths show the error view, zero records render
the fixed no-data message before the schema update, and otherwise the
accordion is rendered and `updateSchema(null, faqData)` runs. -/
def fetchFAQStep (o : FetchOutcome (AirtablePayload FaqRecord)) (s : SchemaState) :
    ContainerView × SchemaState :=
  match o with
  | .netFail _ => (.errorMsg, s)
  | .resp ok payload =>
    if ok then
      match payload.records with
      | none => (.errorMsg, s)
      | some records =>
        if records.length = 0 then (.message "No FAQs available.", s)
        else
          (.faqAccordion (records.map renderFaqPanel),
           updateSchema none (some (records.map faqItemOf)) s)
    else (.errorMsg, s)

/-- Models `renderPricing` of the proxy client variant: `!records ||
records.length === 0` renders the fixed no-data message; otherwise the
table is rendered and `updateSchema(pricingData, null)` runs. -/
def renderPricing (records? : Option (List PricingRecord)) (s : SchemaState) :
    ContainerView × SchemaState :=
  match records? with
  | none => (.message "No availability at this time.", s)
  | some records =>
    if records.length = 0 then (.message "No availability at this time.", s)
    else
      (.pricingTable (records.map renderPricingRow),
       updateSchema (some (pricingDataOf records)) none s)

/-- Models `renderFAQ` of the proxy client variant, analogously to
`renderPricing`. -/
def renderFAQ (records? : Option (List FaqRecord)) (s : SchemaState) :
    ContainerView × SchemaState :=
  match records? with
  | none => (.message "No FAQs available.", s)
  | some records =>
    if records.length = 0 then (.message "No FAQs available.", s)
    else
      (.faqAccordion (records.map renderFaqPanel),
       updateSchema none (some (records.map faqItemOf)) s)

/-- The combined gateway payload as the proxy client reads it:
`data.pricing` and `data.faq`, each `none` when the JSON body has no such
field (as in the gateway's error bodies). -/
structure CombinedPayload where
  pricing : Option (List PricingRecord)
  faq : Option (List FaqRecord)
deriving DecidableEq, Repr

/-- The two container views after the proxy client's single fetch. -/
structure ClientViews where
  pricingView : ContainerView
  faqView : ContainerView
deriving DecidableEq

/-- Models `fetchData` of the proxy client variant: one fetch of
`/api/rates`; a rejected fetch or a non-`ok` response shows the error
view in both containers; on success `renderPricing` runs on
`data.pricing` and then `renderFAQ` on `data.faq`. -/
def fetchData (o : FetchOutcome CombinedPayload) (s : SchemaState) :
    ClientViews × SchemaState :=
  match o with
  | .netFail _ => (⟨.errorMsg, .errorMsg⟩, s)
  | .resp ok payload =>
    if ok then
      let pr := renderPricing payload.pricing s
      let fr := renderFAQ payload.faq pr.2
      (⟨pr.1, fr.1⟩, fr.2)
    else (⟨.errorMsg, .errorMsg⟩, s)

/-- Models `toggleAccordion(id)` on the addressed panel: when the content
is hidden, unhide it and rotate the icon; otherwise hide the content and
unrotate the icon. -/
def toggleAccordion (p : FaqPanel) : FaqPanel :=
  if "hidden" ∈ p.contentClasses then
    { p with
      contentClasses := p.contentClasses.erase "hidden"
      iconClasses := insert "rotate-180" p.iconClasses }
  else
    { p with
      contentClasses := insert "hidden" p.contentClasses
      iconClasses := p.iconClasses.erase "rotate-180" }

/-- The browser-page state the accordion interaction lives in: the
publisher state (caches and injected documents) and the rendered panels
in document order (`faq-0`, `faq-1`, ...). -/
structure PageState where
  schema : SchemaState
  panels : List FaqPanel
deriving DecidableEq

/-- `toggleAccordion('faq-i')` on the page: toggles the classes of panel
`i`'s content and icon elements and touches nothing else.  For an index
with no panel, `getElementById` yields `null` and the source would throw
on `null.classList`; the claims only address existing panels, and the
model leaves the state unchanged there. -/
def toggleAccordionAt (i : ℕ) (st : PageState) : PageState :=
  match st.panels[i]? with
  | some p => { st with panels := st.panels.set i (toggleAccordion p) }
  | none => st

/-- A JSON body the gateway can respond with: the combined success
payload, an error object (`error` plus an optional `message`, matching
`{ error: 'Method not allowed' }` and the two 500 bodies), or the empty
body of the preflight answer. -/
inductive HBody (P F : Type) : Type where
  | success (pricing : List P) (faq : List F)
  | errorBody (error : String) (message : Option String)
  | emptyBody
deriving DecidableEq, Repr

/-- A gateway HTTP response: status code and JSON body.  Every response
additionally carries the same four constant CORS/content-type headers,
set unconditionally before any branching, so they are not part of the
state the claims distinguish. -/
structure HResponse (P F : Type) where
  status : ℕ
  body : HBody P F
deriving DecidableEq, Repr

/-- Whether the configured `AIRTABLE_API_KEY` is missing in the sense of
the guard `if (!AIRTABLE_API_KEY)`: unset, or set to the empty string. -/
def keyMissing : Option String → Bool
  | none => true
  | some k => k == ""

/-- Models the serverless `handler`: preflight and method checks, the
credential check before any upstream call, then the `Promise.all` over
the two upstream fetches.  A rejected fetch rejects the join and the
catch block answers 500 with that error's message (when both reject,
`Promise.all` takes the first rejection in time; this model takes the
pricing one, and the theorems constrain the message only to come from a
failing fetch).  With both responses settled, a non-`ok` flag on either
throws `Failed to fetch data from Airtable` into the same catch block;
full success answers 200 with the two record lists, each defaulting to
empty when the payload omits `records`. -/
def handler {P F : Type} (method : String) (apiKey : Option String)
    (pricingFetch : FetchOutcome (AirtablePayload P))
    (faqFetch : FetchOutcome (AirtablePayload F)) : HResponse P F :=
  if method = "OPTIONS" then ⟨200, .emptyBody⟩
  else if method ≠ "GET" then ⟨405, .errorBody "Method not allowed" none⟩
  else if keyMissing apiKey then
    ⟨500, .errorBody "Server configuration error" (some "Airtable API key not configured")⟩
  else
    match pricingFetch, faqFetch with
    | .netFail m, _ => ⟨500, .errorBody "Failed to fetch data" (some m)⟩
    | _, .netFail m => ⟨500, .errorBody "Failed to fetch data" (some m)⟩
    | .resp pok pp, .resp fok fp =>
      if pok && fok then ⟨200, .success (pp.records.getD []) (fp.records.getD [])⟩
      else ⟨500, .errorBody "Failed to fetch data" (some "Failed to fetch data from Airtable")⟩

/-- How the proxy client observes a gateway response: `response.ok` is
the 2xx test, and `data.pricing` / `data.faq` are read from the JSON
body, absent on the gateway's error bodies. -/
def gatewayOutcome (r : HResponse PricingRecord FaqRecord) : FetchOutcome CombinedPayload :=
  .resp (decide (200 ≤ r.status ∧ r.status ≤ 299))
    (match r.body with
     | .success p f => ⟨some p, some f⟩
     | .errorBody _ _ => ⟨none, none⟩
     | .emptyBody => ⟨none, none⟩)

/-! ## General lemmas about the embedded operations -/

/-- Closed form of `updateSchema`: merge each provided list over the
cached one, then rebuild each document from its merged cache when that
cache is non-empty. -/
theorem updateSchema_eq (p? : Option (List ℚ)) (f? : Option (List FaqItem)) (s : SchemaState) :
    updateSchema p? f? s =
      { globalPricingData := p?.getD s.globalPricingData
        globalFaqData := f?.getD s.globalFaqData
        offerDoc :=
          if (p?.getD s.globalPricingData).length > 0 then
            offerSchemaOf (p?.getD s.globalPricingData)
          else s.offerDoc
        faqDoc :=
          if (f?.getD s.globalFaqData).length > 0 then
            some (faqSchemaOf (f?.getD s.globalFaqData))
          else s.faqDoc } := by
  cases p? <;> cases f? <;>
    simp only [updateSchema, Option.getD_some, Option.getD_none] <;>
    split_ifs <;> rfl

/-- A left fold of `min` lands on one of the folded elements. -/
theorem foldl_min_mem (ps : List ℚ) (p : ℚ) : ps.foldl min p ∈ p :: ps := by
  induction ps generalizing p with
  | nil => simp
  | cons a ps ih =>
    simp only [List.foldl_cons]
    rcases List.mem_cons.mp (ih (min p a)) with h | h
    · rw [h]
      rcases min_choice p a with hc | hc <;> simp [hc]
    · simp [h]

/-- A left fold of `min` is a lower bound of the start and the folded
elements. -/
theorem foldl_min_le (ps : List ℚ) (p : ℚ) : ∀ x ∈ p :: ps, ps.foldl min p ≤ x := by
  induction ps generalizing p with
  | nil =>
    intro x hx
    simp only [List.mem_singleton] at hx
    simp [hx]
  | cons a ps ih =>
    intro x hx
    simp only [List.foldl_cons]
    have hstart : ps.foldl min (min p a) ≤ min p a := ih (min p a) _ (List.mem_cons_self _ _)
    rcases List.mem_cons.mp hx with h | h
    · subst h
      exact le_trans hstart (min_le_left _ _)
    · rcases List.mem_cons.mp h with h2 | h2
      · subst h2
        exact le_trans hstart (min_le_right _ _)
      · exact ih (min p a) x (List.mem_cons.mpr (Or.inr h2))

/-- A left fold of `max` lands on one of the folded elements. -/
theorem foldl_max_mem (ps : List ℚ) (p : ℚ) : ps.foldl max p ∈ p :: ps := by
  induction ps generalizing p with
  | nil => simp
  | cons a ps ih =>
    simp only [List.foldl_cons]
    rcases List.mem_cons.mp (ih (max p a)) with h | h
    · rw [h]
      rcases max_choice p a with hc | hc <;> simp [hc]
    · simp [h]

/-- A left fold of `max` is an upper bound of the start and the folded
elements. -/
theorem le_foldl_max (ps : List ℚ) (p : ℚ) : ∀ x ∈ p :: ps, x ≤ ps.foldl max p := by
  induction ps generalizing p with
  | nil =>
    intro x hx
    simp only [List.mem_singleton] at hx
    simp [hx]
  | cons a ps ih =>
    intro x hx
    simp only [List.foldl_cons]
    have hstart : max p a ≤ ps.foldl max (max p a) := ih (max p a) _ (List.mem_cons_self _ _)
    rcases List.mem_cons.mp hx with h | h
    · subst h
      exact le_trans (le_max_left _ _) hstart
    · rcases List.mem_cons.mp h with h2 | h2
      · subst h2
        exact le_trans (le_max_right _ _) hstart
      · exact ih (max p a) x (List.mem_cons.mpr (Or.inr h2))

/-! ## Claim theorems -/

/-- C1: for every pricing list `P` and FAQ list `F`, running
`updateSchema(P, null)` and `updateSchema(null, F)` in either order from
the same starting state produces the same final cached state and the same
two published documents — the Offer document computed from `P` and the
FAQPage document computed from `F` — and each call with an absent
argument leaves the other kind's cached list untouched. -/
theorem updateSchema_two_fetch_commutes (P : List ℚ) (F : List FaqItem) (s : SchemaState)
    (hP : P ≠ []) (hF : F ≠ []) :
    updateSchema none (some F) (updateSchema (some P) none s) =
      updateSchema (some P) none (updateSchema none (some F) s) ∧
    (updateSchema none (some F) (updateSchema (some P) none s)).globalPricingData = P ∧
    (updateSchema none (some F) (updateSchema (some P) none s)).globalFaqData = F ∧
    (updateSchema none (some F) (updateSchema (some P) none s)).offerDoc = offerSchemaOf P ∧
    (updateSchema none (some F) (updateSchema (some P) none s)).faqDoc =
      some (faqSchemaOf F) ∧
    (updateSchema (some P) none s).globalFaqData = s.globalFaqData ∧
    (updateSchema none (some F) s).globalPricingData = s.globalPricingData := by
  simp [updateSchema_eq, List.length_pos, hP, hF]

/-- Closed instance of `updateSchema_two_fetch_commutes` at a concrete
pricing list, FAQ list and starting state. -/
theorem updateSchema_two_fetch_commutes_witness :
    ([(1000 : ℚ)] ≠ [] ∧ [FaqItem.mk "q" "a"] ≠ []) ∧
    (updateSchema none (some [FaqItem.mk "q" "a"])
        (updateSchema (some [(1000 : ℚ)]) none SchemaState.initial) =
      updateSchema (some [(1000 : ℚ)]) none
        (updateSchema none (some [FaqItem.mk "q" "a"]) SchemaState.initial) ∧
    (updateSchema none (some [FaqItem.mk "q" "a"])
        (updateSchema (some [(1000 : ℚ)]) none SchemaState.initial)).globalPricingData =
      [(1000 : ℚ)] ∧
    (updateSchema none (some [FaqItem.mk "q" "a"])
        (updateSchema (some [(1000 : ℚ)]) none SchemaState.initial)).globalFaqData =
      [FaqItem.mk "q" "a"] ∧
    (updateSchema none (some [FaqItem.mk "q" "a"])
        (updateSchema (some [(1000 : ℚ)]) none SchemaState.initial)).offerDoc =
      offerSchemaOf [(1000 : ℚ)] ∧
    (updateSchema none (some [FaqItem.mk "q" "a"])
        (updateSchema (some [(1000 : ℚ)]) none SchemaState.initial)).faqDoc =
      some (faqSchemaOf [FaqItem.mk "q" "a"]) ∧
    (updateSchema (some [(1000 : ℚ)]) none SchemaState.initial).globalFaqData =
      SchemaState.initial.globalFaqData ∧
    (updateSchema none (some [FaqItem.mk "q" "a"]) SchemaState.initial).globalPricingData =
      SchemaState.initial.globalPricingData) :=
  ⟨⟨by simp, by simp⟩,
   updateSchema_two_fetch_commutes [(1000 : ℚ)] [FaqItem.mk "q" "a"] SchemaState.initial
     (by simp) (by simp)⟩

/-- C2: for every non-empty cached pricing list of valid numeric prices,
the published Aggregate Offer Summary has currency `USD`, `lowPrice` the
minimum of the prices, `highPrice` the maximum, `offerCount` the number
of entries and availability `InStock`; it is recomputed solely from the
cached list (the prior document state never enters); and over
`[1000, 1500, 1200]` it yields `lowPrice = 1000`, `highPrice = 1500`,
`offerCount = 3`. -/
theorem offer_summary_correct (P : List ℚ) (f? : Option (List FaqItem)) (s t : SchemaState)
    (hP : P ≠ []) :
    (∃ o : OfferSchema,
      (updateSchema (some P) f? s).offerDoc = some o ∧
      o.priceCurrency = "USD" ∧
      o.availability = "https://schema.org/InStock" ∧
      o.offerCount = P.length ∧
      o.lowPrice ∈ P ∧ (∀ x ∈ P, o.lowPrice ≤ x) ∧
      o.highPrice ∈ P ∧ (∀ x ∈ P, x ≤ o.highPrice)) ∧
    (updateSchema (some P) f? s).offerDoc = (updateSchema (some P) f? t).offerDoc ∧
    (updateSchema (some [(1000 : ℚ), 1500, 1200]) none s).offerDoc =
      some { priceCurrency := "USD", lowPrice := 1000, highPrice := 1500,
             offerCount := 3, availability := "https://schema.org/InStock" } := by
  obtain ⟨p, ps, rfl⟩ := List.exists_cons_of_ne_nil hP
  refine ⟨⟨{ priceCurrency := "USD", lowPrice := ps.foldl min p, highPrice := ps.foldl max p,
             offerCount := (p :: ps).length, availability := "https://schema.org/InStock" },
          ?_, rfl, rfl, rfl, foldl_min_mem ps p, foldl_min_le ps p,
          foldl_max_mem ps p, le_foldl_max ps p⟩, ?_, ?_⟩
  · simp [updateSchema_eq, offerSchemaOf]
  · simp [updateSchema_eq]
  · simp only [updateSchema_eq, Option.getD_some, List.length_cons]
    norm_num [offerSchemaOf, min_def, max_def]

/-- Closed instance of `offer_summary_correct` at the concrete list
`[1000, 1500, 1200]`. -/
theorem offer_summary_correct_witness :
    ([(1000 : ℚ), 1500, 1200] ≠ []) ∧
    ((∃ o : OfferSchema,
      (updateSchema (some [(1000 : ℚ), 1500, 1200]) none SchemaState.initial).offerDoc = some o ∧
      o.priceCurrency = "USD" ∧
      o.availability = "https://schema.org/InStock" ∧
      o.offerCount = [(1000 : ℚ), 1500, 1200].length ∧
      o.lowPrice ∈ [(1000 : ℚ), 1500, 1200] ∧
      (∀ x ∈ [(1000 : ℚ), 1500, 1200], o.lowPrice ≤ x) ∧
      o.highPrice ∈ [(1000 : ℚ), 1500, 1200] ∧
      (∀ x ∈ [(1000 : ℚ), 1500, 1200], x ≤ o.highPrice)) ∧
    (updateSchema (some [(1000 : ℚ), 1500, 1200]) none SchemaState.initial).offerDoc =
      (updateSchema (some [(1000 : ℚ), 1500, 1200]) none SchemaState.initial).offerDoc ∧
    (updateSchema (some [(1000 : ℚ), 1500, 1200]) none SchemaState.initial).offerDoc =
      some { priceCurrency := "USD", lowPrice := 1000, highPrice := 1500,
             offerCount := 3, availability := "https://schema.org/InStock" }) :=
  ⟨by simp,
   offer_summary_correct [(1000 : ℚ), 1500, 1200] none SchemaState.initial SchemaState.initial
     (by simp)⟩

/-- Parsing the exemplar currency string: stripping `$` and `,` from
`"$1,250"` and parsing yields `1250`. -/
theorem parseFloat_dollar_example : parseFloat (stripCurrency "$1,250") = some 1250 := by
  have h : lexDecimal ((stripCurrency "$1,250").data.dropWhile isJsSpace) =
      ⟨false, ['1', '2', '5', '0'], [], []⟩ := by decide
  have h2 : digitsToNat ['1', '2', '5', '0'] = 1250 := by decide
  simp [parseFloat, h, DecLex.hasDigits, DecLex.value, h2, digitsToNat]

/-- Normalization of the exemplar currency string. -/
theorem normalizePrice_dollar_example : normalizePrice (JVal.str "$1,250") = some 1250 := by
  simp [normalizePrice, parseFloat_dollar_example]

/-- C3 counterexample: a record whose price field is the non-empty,
unparseable string `"TBD"` is excluded from the aggregate list exactly as
the claim says, but its rendered price cell is the currency formatting of
`NaN` (`"$NaN"`), not the literal `"Call for pricing"` the claim
asserts: the `fields['Current Price'] ? ... : 'Call for pricing'` test
only falls back on falsy values, and a non-empty string is truthy. -/
theorem unparseable_price_render_counterexample :
    normalizePrice (JVal.str "TBD") = none ∧
    (renderPricingRow ⟨⟨JVal.absent, JVal.absent, JVal.str "TBD", JVal.absent⟩⟩).priceCell =
      "$NaN" ∧
    (renderPricingRow ⟨⟨JVal.absent, JVal.absent, JVal.str "TBD", JVal.absent⟩⟩).priceCell ≠
      "Call for pricing" :=
  ⟨by decide, by decide, by decide⟩

/-- C3 amended: normalization strips `$` and `,` and parses, so any price
string whose stripped form parses yields that value (`"$1,250"` yields
`1250`); a record whose price fails to normalize is excluded from the
aggregate list while the table still renders one row per record; the
price cell shows the literal `"Call for pricing"` exactly when the price
field is falsy (absent, `null`, `0`, or the empty string), and a
non-empty string that fails to parse as a number renders as the currency
formatting of `NaN` (`"$NaN"`) instead. -/
theorem price_normalization_amended (s : String) (q : ℚ) (r : PricingRecord)
    (records : List PricingRecord) (v : JVal) (t : String)
    (hs : parseFloat (stripCurrency s) = some q)
    (hr : normalizePrice r.fields.currentPrice = none)
    (hv : v.truthy = false)
    (ht : t ≠ "") (htn : jsStringToNumber t = none) :
    normalizePrice (JVal.str s) = some q ∧
    pricingDataOf (r :: records) = pricingDataOf records ∧
    (records.map renderPricingRow).length = records.length ∧
    priceCell v = "Call for pricing" ∧
    priceCell (JVal.str t) = "$NaN" ∧
    normalizePrice (JVal.str "$1,250") = some 1250 := by
  refine ⟨hs, ?_, List.length_map _ _, ?_, ?_, normalizePrice_dollar_example⟩
  · simp [pricingDataOf, hr]
  · simp [priceCell, hv]
  · simp [priceCell, JVal.truthy, ht, formatCurrency, jsToNumber, htn]

/-- Closed instance of `price_normalization_amended` at the string
`"$1,250"`, a `"TBD"`-priced record, an absent price value and the
unparseable string `"TBD"`. -/
theorem price_normalization_amended_witness :
    (parseFloat (stripCurrency "$1,250") = some 1250 ∧
     normalizePrice (PricingRecord.mk
        ⟨JVal.absent, JVal.absent, JVal.str "TBD", JVal.absent⟩).fields.currentPrice = none ∧
     JVal.truthy JVal.absent = false ∧
     ("TBD" : String) ≠ "" ∧ jsStringToNumber "TBD" = none) ∧
    (normalizePrice (JVal.str "$1,250") = some 1250 ∧
     pricingDataOf
        [PricingRecord.mk ⟨JVal.absent, JVal.absent, JVal.str "TBD", JVal.absent⟩] =
       pricingDataOf [] ∧
     (([] : List PricingRecord).map renderPricingRow).length = ([] : List PricingRecord).length ∧
     priceCell JVal.absent = "Call for pricing" ∧
     priceCell (JVal.str "TBD") = "$NaN" ∧
     normalizePrice (JVal.str "$1,250") = some 1250) :=
  ⟨⟨parseFloat_dollar_example, by decide, by decide, by decide, by decide⟩,
   price_normalization_amended "$1,250" 1250
     (PricingRecord.mk ⟨JVal.absent, JVal.absent, JVal.str "TBD", JVal.absent⟩) [] JVal.absent
     "TBD" parseFloat_dollar_example (by decide) (by decide) (by decide) (by decide)⟩

/-- Whether a fetch outcome is a fully successful upstream call: the
promise resolved and the response's `ok` flag is set. -/
def FetchOutcome.isOk {α : Type} : FetchOutcome α → Bool
  | .resp ok _ => ok
  | .netFail _ => false

/-- C4: for every GET request with a configured key where at least one of
the two upstream fetches fails (rejected promise or non-`ok` status), the
handler answers 500 with body `error = "Failed to fetch data"` and a
`message` that is the triggering error's text (the rejecting fetch's
message, or `Failed to fetch data from Airtable` thrown on a non-`ok`
status), and the body is never the partial-success shape. -/
theorem gateway_upstream_failure_500 {P F : Type} (k : String)
    (pr : FetchOutcome (AirtablePayload P)) (fr : FetchOutcome (AirtablePayload F))
    (hk : k ≠ "") (hfail : ¬(pr.isOk = true ∧ fr.isOk = true)) :
    (handler "GET" (some k) pr fr).status = 500 ∧
    (∃ m, (handler "GET" (some k) pr fr).body = HBody.errorBody "Failed to fetch data" (some m) ∧
      (pr = FetchOutcome.netFail m ∨ fr = FetchOutcome.netFail m ∨
        m = "Failed to fetch data from Airtable")) ∧
    ∀ (p : List P) (f : List F), (handler "GET" (some k) pr fr).body ≠ HBody.success p f := by
  have hkey : keyMissing (some k) = false := by
    simp [keyMissing, hk]
  cases pr with
  | netFail m =>
    refine ⟨?_, ⟨m, ?_, Or.inl rfl⟩, ?_⟩ <;> simp [handler, hkey]
  | resp pok pp =>
    cases fr with
    | netFail m =>
      refine ⟨?_, ⟨m, ?_, Or.inr (Or.inl rfl)⟩, ?_⟩ <;> simp [handler, hkey]
    | resp fok fp =>
      have hnot : (pok && fok) = false := by
        simp only [FetchOutcome.isOk] at hfail
        cases pok <;> cases fok <;> simp_all
      refine ⟨?_, ⟨"Failed to fetch data from Airtable", ?_, Or.inr (Or.inr rfl)⟩, ?_⟩ <;>
        simp [handler, hkey, hnot]

/-- Closed instance of `gateway_upstream_failure_500`: pricing rejects
with `network down` while the FAQ fetch succeeds. -/
theorem gateway_upstream_failure_500_witness :
    (("key" : String) ≠ "" ∧
     ¬((FetchOutcome.netFail "network down" :
          FetchOutcome (AirtablePayload PricingRecord)).isOk = true ∧
       (FetchOutcome.resp true (AirtablePayload.mk (some ([] : List FaqRecord)))).isOk = true)) ∧
    ((handler "GET" (some "key")
        (FetchOutcome.netFail "network down" : FetchOutcome (AirtablePayload PricingRecord))
        (FetchOutcome.resp true (AirtablePayload.mk (some ([] : List FaqRecord))))).status = 500 ∧
     (∃ m, (handler "GET" (some "key")
        (FetchOutcome.netFail "network down" : FetchOutcome (AirtablePayload PricingRecord))
        (FetchOutcome.resp true (AirtablePayload.mk (some ([] : List FaqRecord))))).body =
          HBody.errorBody "Failed to fetch data" (some m) ∧
       ((FetchOutcome.netFail "network down" : FetchOutcome (AirtablePayload PricingRecord)) =
           FetchOutcome.netFail m ∨
        (FetchOutcome.resp true (AirtablePayload.mk (some ([] : List FaqRecord)))) =
           FetchOutcome.netFail m ∨
        m = "Failed to fetch data from Airtable")) ∧
     ∀ (p : List PricingRecord) (f : List FaqRecord),
       (handler "GET" (some "key")
         (FetchOutcome.netFail "network down" : FetchOutcome (AirtablePayload PricingRecord))
         (FetchOutcome.resp true (AirtablePayload.mk (some ([] : List FaqRecord))))).body ≠
         HBody.success p f) :=
  ⟨⟨by decide, by decide⟩,
   gateway_upstream_failure_500 "key" (FetchOutcome.netFail "network down")
     (FetchOutcome.resp true (AirtablePayload.mk (some ([] : List FaqRecord))))
     (by decide) (by decide)⟩

/-- C6: a GET request arriving with no configured `AIRTABLE_API_KEY`
answers 500 with the server-configuration error body, and the response is
the same whatever the upstream results would have been — the functional
content of the guard returning before any upstream fetch is issued. -/
theorem gateway_missing_key_500 {P F : Type}
    (pr pr' : FetchOutcome (AirtablePayload P)) (fr fr' : FetchOutcome (AirtablePayload F)) :
    handler "GET" none pr fr =
      ⟨500, HBody.errorBody "Server configuration error"
        (some "Airtable API key not configured")⟩ ∧
    handler "GET" none pr fr = handler "GET" none pr' fr' :=
  ⟨rfl, rfl⟩

/-- C7: a GET request with a configured key where both upstream fetches
succeed answers 200 with exactly `success pricing faq`, each list being
the corresponding payload's `records` field and defaulting to empty when
the payload omits it. -/
theorem gateway_success_shape {P F : Type} (k : String) (hk : k ≠ "")
    (pp : AirtablePayload P) (fp : AirtablePayload F) :
    handler "GET" (some k) (FetchOutcome.resp true pp) (FetchOutcome.resp true fp) =
      ⟨200, HBody.success (pp.records.getD []) (fp.records.getD [])⟩ := by
  have hkey : keyMissing (some k) = false := by
    simp [keyMissing, hk]
  simp [handler, hkey]

/-- Closed instance of `gateway_success_shape`: one pricing record, and a
FAQ payload omitting `records` (which defaults to the empty list). -/
theorem gateway_success_shape_witness :
    (("key" : String) ≠ "") ∧
    handler "GET" (some "key")
        (FetchOutcome.resp true
          (AirtablePayload.mk
            (some [PricingRecord.mk ⟨JVal.str "Studio", JVal.absent, JVal.num 1000, JVal.absent⟩])))
        (FetchOutcome.resp true (AirtablePayload.mk (none : Option (List FaqRecord)))) =
      ⟨200, HBody.success
        ((some [PricingRecord.mk
            ⟨JVal.str "Studio", JVal.absent, JVal.num 1000, JVal.absent⟩]).getD [])
        ((none : Option (List FaqRecord)).getD [])⟩ :=
  ⟨by decide,
   gateway_success_shape "key" (by decide)
     (AirtablePayload.mk
       (some [PricingRecord.mk ⟨JVal.str "Studio", JVal.absent, JVal.num 1000, JVal.absent⟩]))
     (AirtablePayload.mk (none : Option (List FaqRecord)))⟩

/-- C8: a successful fetch with zero records renders the fixed no-data
message for its kind (`No availability at this time.` for pricing, `No
FAQs available.` for FAQ) in both client variants and returns before the
Structured-Data Publisher runs, so the whole publisher state — cached
lists and both injected documents — is exactly the state from before the
fetch, byte for byte. -/
theorem zero_records_retain_schema (s : SchemaState) :
    fetchPricingStep (FetchOutcome.resp true ⟨some []⟩) s =
      (ContainerView.message "No availability at this time.", s) ∧
    fetchFAQStep (FetchOutcome.resp true ⟨some []⟩) s =
      (ContainerView.message "No FAQs available.", s) ∧
    renderPricing (some []) s = (ContainerView.message "No availability at this time.", s) ∧
    renderFAQ (some []) s = (ContainerView.message "No FAQs available.", s) :=
  ⟨rfl, rfl, rfl, rfl⟩

/-- Setting a list position to the value it already holds leaves the
list unchanged. -/
theorem set_getElem?_self {α : Type} :
    ∀ (l : List α) (i : ℕ) (a : α), l[i]? = some a → l.set i a = l
  | [], i, a, h => by simp at h
  | b :: l, 0, a, h => by
    simp only [List.getElem?_cons_zero, Option.some.injEq] at h
    simp [h]
  | b :: l, i + 1, a, h => by
    simp only [List.getElem?_cons_succ] at h
    simp [set_getElem?_self l i a h]

/-- A toggle state is consistent when the chevron is rotated exactly when
the content is shown; freshly rendered panels are consistent and the
toggle preserves consistency. -/
def panelConsistent (p : FaqPanel) : Prop :=
  "hidden" ∈ p.contentClasses ↔ "rotate-180" ∉ p.iconClasses

/-- Double-toggling a consistent panel restores its exact class sets. -/
theorem toggleAccordion_toggleAccordion (p : FaqPanel) (hc : panelConsistent p) :
    toggleAccordion (toggleAccordion p) = p := by
  unfold panelConsistent at hc
  by_cases h : "hidden" ∈ p.contentClasses
  · have hr : "rotate-180" ∉ p.iconClasses := hc.mp h
    simp only [toggleAccordion, if_pos h]
    rw [if_neg (Finset.not_mem_erase _ _)]
    cases p
    simp_all [Finset.insert_erase, Finset.erase_insert]
  · have hr : "rotate-180" ∈ p.iconClasses := by
      by_contra hr
      exact h (hc.mpr hr)
    simp only [toggleAccordion, if_neg h]
    rw [if_pos (Finset.mem_insert_self _ _)]
    cases p
    simp_all [Finset.erase_insert, Finset.insert_erase]

/-- C9: toggling the same accordion panel twice returns the panel's
content and icon class lists to exactly what they were before the first
toggle, and a toggle changes only that panel's presentation — the cached
pricing/FAQ data and both published metadata documents are untouched. -/
theorem toggleAccordion_double_idempotent (st : PageState) (i : ℕ) (p : FaqPanel)
    (hp : st.panels[i]? = some p) (hc : panelConsistent p) :
    toggleAccordionAt i (toggleAccordionAt i st) = st ∧
    (toggleAccordionAt i st).schema = st.schema := by
  have hlt : i < st.panels.length := by
    rcases List.getElem?_eq_some.mp hp with ⟨hl, _⟩
    exact hl
  constructor
  · simp only [toggleAccordionAt, hp]
    rw [List.getElem?_set_eq_of_lt _ hlt]
    simp only [List.set_set]
    rw [toggleAccordion_toggleAccordion p hc, set_getElem?_self st.panels i p hp]
  · simp [toggleAccordionAt, hp]

/-- Closed instance of `toggleAccordion_double_idempotent` on a page with
one freshly rendered (hidden, unrotated, hence consistent) panel. -/
theorem toggleAccordion_double_idempotent_witness :
    ((PageState.mk SchemaState.initial
        [renderFaqPanel (FaqRecord.mk ⟨JVal.str "Q1", JVal.str "A1"⟩)]).panels[0]? =
      some (renderFaqPanel (FaqRecord.mk ⟨JVal.str "Q1", JVal.str "A1"⟩)) ∧
     panelConsistent (renderFaqPanel (FaqRecord.mk ⟨JVal.str "Q1", JVal.str "A1"⟩))) ∧
    (toggleAccordionAt 0 (toggleAccordionAt 0
        (PageState.mk SchemaState.initial
          [renderFaqPanel (FaqRecord.mk ⟨JVal.str "Q1", JVal.str "A1"⟩)])) =
      PageState.mk SchemaState.initial
        [renderFaqPanel (FaqRecord.mk ⟨JVal.str "Q1", JVal.str "A1"⟩)] ∧
     (toggleAccordionAt 0
        (PageState.mk SchemaState.initial
          [renderFaqPanel (FaqRecord.mk ⟨JVal.str "Q1", JVal.str "A1"⟩)])).schema =
      (PageState.mk SchemaState.initial
        [renderFaqPanel (FaqRecord.mk ⟨JVal.str "Q1", JVal.str "A1"⟩)]).schema) :=
  ⟨⟨rfl, by simp [panelConsistent, renderFaqPanel, initialContentClasses, initialIconClasses]⟩,
   toggleAccordion_double_idempotent _ 0 _ rfl
     (by simp [panelConsistent, renderFaqPanel, initialContentClasses, initialIconClasses])⟩

/-- C10: when a successful pricing fetch returns at least one record but
no record's price normalizes to a number, the schema update receives an
empty (yet present) pricing list: the cached pricing list is overwritten
to empty whatever it held, the Offer document slot keeps exactly its
previous contents (a previously published Offer document stays, now
unreflected by the cache), and the table still renders one row per
record. -/
theorem empty_normalized_pricing_stale_offer (records : List PricingRecord) (s : SchemaState)
    (hne : records ≠ [])
    (hall : ∀ r ∈ records, normalizePrice r.fields.currentPrice = none) :
    pricingDataOf records = [] ∧
    (fetchPricingStep (FetchOutcome.resp true ⟨some records⟩) s).2.globalPricingData = [] ∧
    (fetchPricingStep (FetchOutcome.resp true ⟨some records⟩) s).2.offerDoc = s.offerDoc ∧
    (fetchPricingStep (FetchOutcome.resp true ⟨some records⟩) s).1 =
      ContainerView.pricingTable (records.map renderPricingRow) := by
  have hdata : pricingDataOf records = [] := by
    simp only [pricingDataOf, List.filterMap_eq_nil_iff]
    exact hall
  have hlen : ¬records.length = 0 := by
    simpa [List.length_eq_zero] using hne
  refine ⟨hdata, ?_, ?_, ?_⟩ <;>
    simp [fetchPricingStep, hlen, hdata, updateSchema_eq]

/-- Closed instance of `empty_normalized_pricing_stale_offer`: one
record priced `"TBD"`, against a state holding a previously published
Offer document. -/
theorem empty_normalized_pricing_stale_offer_witness :
    ([PricingRecord.mk ⟨JVal.absent, JVal.absent, JVal.str "TBD", JVal.absent⟩] ≠
        ([] : List PricingRecord) ∧
     ∀ r ∈ [PricingRecord.mk ⟨JVal.absent, JVal.absent, JVal.str "TBD", JVal.absent⟩],
       normalizePrice r.fields.currentPrice = none) ∧
    (pricingDataOf
        [PricingRecord.mk ⟨JVal.absent, JVal.absent, JVal.str "TBD", JVal.absent⟩] = [] ∧
     (fetchPricingStep
        (FetchOutcome.resp true
          ⟨some [PricingRecord.mk ⟨JVal.absent, JVal.absent, JVal.str "TBD", JVal.absent⟩]⟩)
        (SchemaState.mk [1000]
          [] (offerSchemaOf [1000]) none)).2.globalPricingData = [] ∧
     (fetchPricingStep
        (FetchOutcome.resp true
          ⟨some [PricingRecord.mk ⟨JVal.absent, JVal.absent, JVal.str "TBD", JVal.absent⟩]⟩)
        (SchemaState.mk [1000]
          [] (offerSchemaOf [1000]) none)).2.offerDoc =
       (SchemaState.mk [1000] [] (offerSchemaOf [1000]) none).offerDoc ∧
     (fetchPricingStep
        (FetchOutcome.resp true
          ⟨some [PricingRecord.mk ⟨JVal.absent, JVal.absent, JVal.str "TBD", JVal.absent⟩]⟩)
        (SchemaState.mk [1000]
          [] (offerSchemaOf [1000]) none)).1 =
       ContainerView.pricingTable
         ([PricingRecord.mk ⟨JVal.absent, JVal.absent, JVal.str "TBD", JVal.absent⟩].map
           renderPricingRow)) :=
  ⟨⟨by decide, by decide⟩,
   empty_normalized_pricing_stale_offer
     [PricingRecord.mk ⟨JVal.absent, JVal.absent, JVal.str "TBD", JVal.absent⟩]
     (SchemaState.mk [1000] [] (offerSchemaOf [1000]) none)
     (by decide) (by decide)⟩

/-- The pricing view computed by the proxy client depends only on the
pricing records, not on the publisher state it threads. -/
theorem renderPricing_view_const (p : Option (List PricingRecord)) (s t : SchemaState) :
    (renderPricing p s).1 = (renderPricing p t).1 := by
  cases p with
  | none => rfl
  | some records =>
    simp only [renderPricing]
    split_ifs <;> rfl

/-- The FAQ view computed by the proxy client depends only on the FAQ
records, not on the publisher state it threads. -/
theorem renderFAQ_view_const (f : Option (List FaqRecord)) (s t : SchemaState) :
    (renderFAQ f s).1 = (renderFAQ f t).1 := by
  cases f with
  | none => rfl
  | some records =>
    simp only [renderFAQ]
    split_ifs <;> rfl

/-- C5 counterexample: a failure of the pricing fetch does change the
outcome of the FAQ fetch-and-render at the gateway layer.  With the same
successful FAQ upstream result, the FAQ container renders the accordion
when the pricing upstream succeeds but shows the error message when the
pricing upstream rejects: both kinds ride one combined gateway request,
whose overall 500 makes the proxy client error out both containers. -/
theorem pricing_failure_changes_faq_outcome :
    (fetchData
        (gatewayOutcome
          (handler "GET" (some "key")
            (FetchOutcome.resp true (AirtablePayload.mk (some ([] : List PricingRecord))))
            (FetchOutcome.resp true
              (AirtablePayload.mk (some [FaqRecord.mk ⟨JVal.str "Q1", JVal.str "A1"⟩])))))
        SchemaState.initial).1.faqView =
      ContainerView.faqAccordion [renderFaqPanel (FaqRecord.mk ⟨JVal.str "Q1", JVal.str "A1"⟩)] ∧
    (fetchData
        (gatewayOutcome
          (handler "GET" (some "key")
            (FetchOutcome.netFail "network down" : FetchOutcome (AirtablePayload PricingRecord))
            (FetchOutcome.resp true
              (AirtablePayload.mk (some [FaqRecord.mk ⟨JVal.str "Q1", JVal.str "A1"⟩])))))
        SchemaState.initial).1.faqView = ContainerView.errorMsg :=
  ⟨rfl, rfl⟩

/-- C5 amended: in the direct-access variant the two fetch-and-render
flows touch only their own container and cached list (the sole coupling
is the shared cache merge inside `updateSchema`), and within one
successful combined gateway response each view depends only on its own
kind's records; but in the proxy variant the two kinds share a single
gateway request, so when either upstream fetch fails the combined
response is an overall failure and both containers — the other,
successful kind included — show the error view. -/
theorem faq_pricing_independence_amended (k : String) (hk : k ≠ "")
    (m : String) (fr : FetchOutcome (AirtablePayload FaqRecord)) :
    (∀ (o : FetchOutcome (AirtablePayload PricingRecord)) (s : SchemaState),
      (fetchPricingStep o s).2.globalFaqData = s.globalFaqData) ∧
    (∀ (o : FetchOutcome (AirtablePayload FaqRecord)) (s : SchemaState),
      (fetchFAQStep o s).2.globalPricingData = s.globalPricingData) ∧
    (∀ (p p' : Option (List PricingRecord)) (f : Option (List FaqRecord)) (s t : SchemaState),
      (fetchData (FetchOutcome.resp true ⟨p, f⟩) s).1.faqView =
        (fetchData (FetchOutcome.resp true ⟨p', f⟩) t).1.faqView) ∧
    (∀ (p : Option (List PricingRecord)) (f f' : Option (List FaqRecord)) (s t : SchemaState),
      (fetchData (FetchOutcome.resp true ⟨p, f⟩) s).1.pricingView =
        (fetchData (FetchOutcome.resp true ⟨p, f'⟩) t).1.pricingView) ∧
    (fetchData (gatewayOutcome (handler "GET" (some k) (FetchOutcome.netFail m) fr))
        SchemaState.initial).1 = ClientViews.mk ContainerView.errorMsg ContainerView.errorMsg := by
  have hkey : keyMissing (some k) = false := by
    simp [keyMissing, hk]
  refine ⟨?_, ?_, ?_, ?_, ?_⟩
  · intro o s
    rcases o with m | ⟨ok, payload⟩
    · rfl
    · cases ok
      · rfl
      · rcases payload with ⟨_ | records⟩
        · rfl
        · simp only [fetchPricingStep]
          split_ifs <;> simp [updateSchema_eq]
  · intro o s
    rcases o with m | ⟨ok, payload⟩
    · rfl
    · cases ok
      · rfl
      · rcases payload with ⟨_ | records⟩
        · rfl
        · simp only [fetchFAQStep]
          split_ifs <;> simp [updateSchema_eq]
  · intro p p' f s t
    simp only [fetchData]
    exact renderFAQ_view_const f _ _
  · intro p f f' s t
    simp only [fetchData]
    exact renderPricing_view_const p _ _
  · have hresp : handler "GET" (some k)
        (FetchOutcome.netFail m : FetchOutcome (AirtablePayload PricingRecord)) fr =
        ⟨500, HBody.errorBody "Failed to fetch data" (some m)⟩ := by
      simp [handler, hkey]
    rw [hresp]
    rfl

/-- Closed instance of `faq_pricing_independence_amended` at a concrete
key, failure message and FAQ upstream result. -/
theorem faq_pricing_independence_amended_witness :
    (("key" : String) ≠ "") ∧
    ((∀ (o : FetchOutcome (AirtablePayload PricingRecord)) (s : SchemaState),
      (fetchPricingStep o s).2.globalFaqData = s.globalFaqData) ∧
    (∀ (o : FetchOutcome (AirtablePayload FaqRecord)) (s : SchemaState),
      (fetchFAQStep o s).2.globalPricingData = s.globalPricingData) ∧
    (∀ (p p' : Option (List PricingRecord)) (f : Option (List FaqRecord)) (s t : SchemaState),
      (fetchData (FetchOutcome.resp true ⟨p, f⟩) s).1.faqView =
        (fetchData (FetchOutcome.resp true ⟨p', f⟩) t).1.faqView) ∧
    (∀ (p : Option (List PricingRecord)) (f f' : Option (List FaqRecord)) (s t : SchemaState),
      (fetchData (FetchOutcome.resp true ⟨p, f⟩) s).1.pricingView =
        (fetchData (FetchOutcome.resp true ⟨p, f'⟩) t).1.pricingView) ∧
    (fetchData
        (gatewayOutcome
          (handler "GET" (some "key")
            (FetchOutcome.netFail "network down" : FetchOutcome (AirtablePayload PricingRecord))
            (FetchOutcome.resp true
              (AirtablePayload.mk (some [FaqRecord.mk ⟨JVal.str "Q1", JVal.str "A1"⟩])))))
        SchemaState.initial).1 = ClientViews.mk ContainerView.errorMsg ContainerView.errorMsg) :=
  ⟨by decide,
   faq_pricing_independence_amended "key" (by decide) "network down"
     (FetchOutcome.resp true
       (AirtablePayload.mk (some [FaqRecord.mk ⟨JVal.str "Q1", JVal.str "A1"⟩])))⟩

end Topiary
